import Mathlib

set_option maxHeartbeats 1000000

set_option maxRecDepth 8000

/-!
Verification development for the SN73 micro-grid bot
(source: sn73_micro_grid_bot.py).  Python floats are embedded as rationals,
Python datetimes as a record of calendar fields, and the bot object state as
an explicit record threaded through the operations.  Network calls
(price fetches, stake/unstake extrinsics) are parameterised by the values or
outcomes the gateway returns, so every function of the bot becomes a pure
function of its inputs.
-/

/-- Model of a naive Python `datetime.datetime` value as used for position
timestamps (`datetime.now()` at open and close time). -/
structure PyDateTime where
  year : Nat
  month : Nat
  day : Nat
  hour : Nat
  minute : Nat
  second : Nat
  microsecond : Nat
deriving DecidableEq

/-- A dynamically typed timestamp slot.  In the running program
`sell_timestamp` holds a `datetime` when the close wrote it, but after a
restore of a snapshot whose *active* list carried a sold entry it holds the
string the JSON file stored — the active-positions loop of `load_state`
converts only `created_timestamp` and leaves `sell_timestamp` untouched. -/
inductive PyTimeVal
  | dt (t : PyDateTime)
  | str (s : String)
deriving DecidableEq

/-- A position dictionary as created by `execute_dca_purchase` and mutated in
place by `check_and_execute_sells`.  The five sell-only keys are absent
(`none`) while the position is active; they are all set when it is sold. -/
structure Position where
  id : Nat
  buy_price : ℚ
  sell_target_price : ℚ
  alpha_amount : ℚ
  tao_invested : ℚ
  created_timestamp : PyDateTime
  status : String
  profit_percent : ℚ
  sell_price : Option ℚ
  tao_received : Option ℚ
  profit_tao : Option ℚ
  profit_percent_actual : Option ℚ
  sell_timestamp : Option PyTimeVal
deriving DecidableEq

/-- The mutable fields of the bot object that `save_state` persists and
`load_state` restores.  (`start_time` and `last_save_time` are written to the
file but never read back, and are not part of this record.) -/
structure BotState where
  total_invested : ℚ
  active_positions : List Position
  completed_trades : List Position
  position_counter : Nat
  total_profit_realized : ℚ
  successful_sells : Nat
  failed_sells : Nat
  last_dca_time : ℚ
deriving DecidableEq

/-- The configuration attributes the modelled code reads.  Optional attributes
(accessed through `hasattr`/`getattr` in the source) are `Option`s; the
`getattr` defaults for `max_slippage_percent`, `price_check_tolerance`,
`fee_reserve_enabled` and `auto_fee_reserve` are a particular value of this
record, so quantifying over the record covers them. -/
structure Config where
  dca_amount : ℚ
  dca_interval_hours : ℚ
  profit_target_percent : ℚ
  max_investment : ℚ
  cap_tolerance : ℚ
  max_positions : Nat
  max_slippage_percent : ℚ
  price_check_tolerance : ℚ
  fee_reserve_enabled : Bool
  auto_fee_reserve : ℚ
  min_balance : ℚ
  max_entry_price : Option ℚ
  stop_loss_percent : Option ℚ

/-- The fresh state of `SN73MicroGridBot.__init__`. -/
def initialState : BotState :=
  { total_invested := 0
    active_positions := []
    completed_trades := []
    position_counter := 0
    total_profit_realized := 0
    successful_sells := 0
    failed_sells := 0
    last_dca_time := 0 }

/-- Source `is_at_investment_cap`: `total_invested >= max_investment + cap_tolerance`. -/
def is_at_investment_cap (cfg : Config) (s : BotState) : Bool :=
  decide (cfg.max_investment + cfg.cap_tolerance ≤ s.total_invested)

/-- Source `can_resume_dca`: `total_invested < max_investment - cap_tolerance`.
Defined in the source but never called from the cycle. -/
def can_resume_dca (cfg : Config) (s : BotState) : Bool :=
  decide (s.total_invested < cfg.max_investment - cfg.cap_tolerance)

/-- Source `get_available_balance_for_trading`. -/
def get_available_balance_for_trading (cfg : Config) (wallet_balance : ℚ) : ℚ :=
  if cfg.fee_reserve_enabled then max 0 (wallet_balance - cfg.auto_fee_reserve)
  else max 0 (wallet_balance - cfg.min_balance)

/-- Source `is_time_for_dca`, with `time.time()` passed in as `now`. -/
def is_time_for_dca (cfg : Config) (now : ℚ) (s : BotState) : Bool :=
  if s.last_dca_time = 0 then true
  else decide (cfg.dca_interval_hours * 3600 ≤ now - s.last_dca_time)

/-- Source `get_time_until_next_dca` (minutes), with `time.time()` passed in as `now`. -/
def get_time_until_next_dca (cfg : Config) (now : ℚ) (s : BotState) : ℚ :=
  if s.last_dca_time = 0 then 0
  else max 0 ((cfg.dca_interval_hours * 3600 - (now - s.last_dca_time)) / 60)

/-- The result of `check_price_slippage`: the Python function returns either
`(False, reason-string)` or `(True, fresh-price)`. -/
inductive SlippageCheck
  | rejected (reason : String)
  | accepted (price : ℚ)
deriving DecidableEq

/-- The `trade_type` argument of `check_price_slippage`. -/
inductive TradeType
  | buy
  | sell
deriving DecidableEq

/-- Python `abs` on a rational, in a form the kernel can evaluate. -/
def pyAbs (x : ℚ) : ℚ := if x < 0 then -x else x

/-- Source `check_price_slippage`.  The source re-fetches the price inside this
function; here the freshly fetched price is the `current_price` argument
(a fetch that fails returns a rejection in the source and no trade happens,
the same outcome as `rejected`). -/
def check_price_slippage (cfg : Config) (expected_price current_price : ℚ)
    (trade_type : TradeType) : SlippageCheck :=
  if pyAbs ((current_price - expected_price) / expected_price) * 100 > cfg.max_slippage_percent then
    SlippageCheck.rejected ("Slippage too high")
  else if trade_type = TradeType.buy ∧
      current_price > expected_price * (1 + cfg.price_check_tolerance / 100) then
    SlippageCheck.rejected ("Price increased beyond tolerance")
  else if trade_type = TradeType.sell ∧
      current_price < expected_price * (1 - cfg.price_check_tolerance / 100) then
    SlippageCheck.rejected ("Price decreased beyond tolerance")
  else SlippageCheck.accepted current_price

/-- The returned price of a slippage check, `none` when rejected. -/
def SlippageCheck.allowedPrice : SlippageCheck → Option ℚ
  | SlippageCheck.accepted p => some p
  | SlippageCheck.rejected _ => none

/-- Outcome of one awaited gateway call (`sub.add_stake` / `sub.unstake`):
the call either returns a result value — `ok` for a success value, `rejected`
for a returned value indicating refusal — or raises (`raiseExc`, the
transient network/timeout class caught by the `except` clause). -/
inductive GatewayResp
  | ok
  | rejected
  | raiseExc
deriving DecidableEq

/-- The retry loop shared verbatim by `stake_sn73` and `unstake_sn73`:
`max_retries = 3` attempts; an attempt that raises is retried (after a sleep)
unless it was the last; an attempt that returns is reported as `True`
immediately — the returned `result` value is bound but never inspected.
The scripted outcome list running out is modelled as `False` (no further
attempt can be observed). -/
def gateway_retry : Nat → List GatewayResp → Bool
  | 0, _ => false
  | _ + 1, [] => false
  | n + 1, r :: rs =>
    match r with
    | GatewayResp.raiseExc => if n = 0 then false else gateway_retry n rs
    | _ => true

/-- Number of gateway attempts the retry loop performs on a scripted outcome
list, stopping as the source does. -/
def gateway_attempts : Nat → List GatewayResp → Nat
  | 0, _ => 0
  | _ + 1, [] => 0
  | n + 1, r :: rs =>
    match r with
    | GatewayResp.raiseExc => if n = 0 then 1 else 1 + gateway_attempts n rs
    | _ => 1

/-- Source `stake_sn73`, parameterised by the scripted gateway outcomes. -/
def stake_sn73 (resps : List GatewayResp) : Bool := gateway_retry 3 resps

/-- Attempts performed by `stake_sn73` on the scripted outcomes. -/
def stake_attempts (resps : List GatewayResp) : Nat := gateway_attempts 3 resps

/-- Source `unstake_sn73`, parameterised by the scripted gateway outcomes. -/
def unstake_sn73 (resps : List GatewayResp) : Bool := gateway_retry 3 resps

/-- The successful-purchase branch of `execute_dca_purchase`: record
`last_dca_time`, increment the counter, build the position dictionary, append
it to the active list and add the amount to `total_invested`. -/
def dca_record_purchase (cfg : Config) (s : BotState) (price : ℚ) (now : ℚ)
    (ts : PyDateTime) : BotState :=
  { total_invested := s.total_invested + cfg.dca_amount
    active_positions := s.active_positions ++
      [{ id := s.position_counter + 1
         buy_price := price
         sell_target_price := price * (1 + cfg.profit_target_percent / 100)
         alpha_amount := cfg.dca_amount / price
         tao_invested := cfg.dca_amount
         created_timestamp := ts
         status := "active"
         profit_percent := cfg.profit_target_percent
         sell_price := none
         tao_received := none
         profit_tao := none
         profit_percent_actual := none
         sell_timestamp := none }]
    completed_trades := s.completed_trades
    position_counter := s.position_counter + 1
    total_profit_realized := s.total_profit_realized
    successful_sells := s.successful_sells
    failed_sells := s.failed_sells
    last_dca_time := now }

/-- Source `execute_dca_purchase` after the `max_entry_price` ceiling check: balance
check, buy-direction slippage check against the fresh price, stake, and on
success the ledger update followed by `save_state`.  Returns the new state,
the list of states passed to `save_state` during the call, and the boolean
the Python function returns. -/
def execute_dca_after_price_check (cfg : Config) (s : BotState)
    (current_price fresh_price wallet_balance : ℚ) (stakeResps : List GatewayResp)
    (now : ℚ) (ts : PyDateTime) : BotState × List BotState × Bool :=
  if get_available_balance_for_trading cfg wallet_balance < cfg.dca_amount then
    (s, [], false)
  else
    match check_price_slippage cfg current_price fresh_price TradeType.buy with
    | SlippageCheck.rejected _ => (s, [], true)
    | SlippageCheck.accepted p2 =>
      if stake_sn73 stakeResps then
        let s2 := dca_record_purchase cfg s p2 now ts
        (s2, [s2], true)
      else (s, [], false)

/-- Source `execute_dca_purchase`, with the two price fetches, the balance query and
the scripted stake outcomes passed in (a failed subnet-info fetch returns
`False` with no state change in the source, the same as an empty outcome
script with an immediately raising stake — the claims quantify over the
successful-fetch runs). -/
def execute_dca_purchase (cfg : Config) (s : BotState)
    (current_price fresh_price wallet_balance : ℚ) (stakeResps : List GatewayResp)
    (now : ℚ) (ts : PyDateTime) : BotState × List BotState × Bool :=
  match cfg.max_entry_price with
  | some mep =>
    if current_price > mep then (s, [], true)
    else execute_dca_after_price_check cfg s current_price fresh_price wallet_balance
      stakeResps now ts
  | none => execute_dca_after_price_check cfg s current_price fresh_price wallet_balance
      stakeResps now ts

/-- The stop-loss trigger test of `check_and_execute_sells` (the `elif`
branch): configured, positive, and `current_price <= buy_price * (1 -
abs(stop_loss_percent)/100)`.  In the source this branch only prints. -/
def stop_loss_triggered (cfg : Config) (current_price : ℚ) (p : Position) : Bool :=
  match cfg.stop_loss_percent with
  | some sl => decide (sl > 0) && decide (current_price ≤ p.buy_price * (1 - |sl| / 100))
  | none => false

/-- The loop-carried state of the `for position in self.active_positions`
loop in `check_and_execute_sells`: the (reassignable) `current_price`, the
already-iterated positions (`done`, holding the in-place-mutated
dictionaries), the growing `completed_trades` and `positions_to_remove`
lists, the running totals, the states passed to `save_state`, and the ids for
which `unstake_sn73` was invoked. -/
structure SellScan where
  current_price : ℚ
  done : List Position
  completed_trades : List Position
  positions_to_remove : List Position
  total_profit_realized : ℚ
  successful_sells : Nat
  failed_sells : Nat
  total_invested : ℚ
  saves : List BotState
  unstake_calls : List Nat
deriving DecidableEq

/-- One iteration of the sell loop for position `p` with the not-yet-iterated
tail `rest` (needed because `save_state` inside the loop snapshots the whole
in-memory active list).  `sellFresh` and `unstakeResps` script, per position
id, the fresh price fetched by the sell-direction slippage check and the
gateway outcomes of the unstake attempts. -/
def sells_step (cfg : Config) (sellFresh : Nat → ℚ)
    (unstakeResps : Nat → List GatewayResp) (sellTs : PyDateTime)
    (position_counter : Nat) (last_dca_time : ℚ)
    (st : SellScan) (p : Position) (rest : List Position) : SellScan :=
  if p.status ≠ "active" then { st with done := st.done ++ [p] }
  else if st.current_price ≥ p.sell_target_price then
    match check_price_slippage cfg st.current_price (sellFresh p.id) TradeType.sell with
    | SlippageCheck.rejected _ => { st with done := st.done ++ [p] }
    | SlippageCheck.accepted p2 =>
      if unstake_sn73 (unstakeResps p.id) then
        let tao_received := p.alpha_amount * p2
        let profit_tao := tao_received - p.tao_invested
        let soldPos : Position :=
          { p with status := "sold"
                   sell_price := some p2
                   tao_received := some tao_received
                   profit_tao := some profit_tao
                   profit_percent_actual := some (profit_tao / p.tao_invested * 100)
                   sell_timestamp := some (PyTimeVal.dt sellTs) }
        let snap : BotState :=
          { total_invested := st.total_invested - p.tao_invested
            active_positions := st.done ++ soldPos :: rest
            completed_trades := st.completed_trades ++ [soldPos]
            position_counter := position_counter
            total_profit_realized := st.total_profit_realized + profit_tao
            successful_sells := st.successful_sells + 1
            failed_sells := st.failed_sells
            last_dca_time := last_dca_time }
        { current_price := p2
          done := st.done ++ [soldPos]
          completed_trades := st.completed_trades ++ [soldPos]
          positions_to_remove := st.positions_to_remove ++ [soldPos]
          total_profit_realized := st.total_profit_realized + profit_tao
          successful_sells := st.successful_sells + 1
          failed_sells := st.failed_sells
          total_invested := st.total_invested - p.tao_invested
          saves := st.saves ++ [snap]
          unstake_calls := st.unstake_calls ++ [p.id] }
      else
        { st with current_price := p2
                  done := st.done ++ [p]
                  failed_sells := st.failed_sells + 1
                  unstake_calls := st.unstake_calls ++ [p.id] }
  else
    if stop_loss_triggered cfg st.current_price p then { st with done := st.done ++ [p] }
    else { st with done := st.done ++ [p] }

/-- The sell loop over the remaining positions. -/
def sells_go (cfg : Config) (sellFresh : Nat → ℚ)
    (unstakeResps : Nat → List GatewayResp) (sellTs : PyDateTime)
    (position_counter : Nat) (last_dca_time : ℚ) :
    SellScan → List Position → SellScan
  | st, [] => st
  | st, p :: rest =>
    sells_go cfg sellFresh unstakeResps sellTs position_counter last_dca_time
      (sells_step cfg sellFresh unstakeResps sellTs position_counter last_dca_time st p rest)
      rest

/-- Python `list.remove`: delete the first element equal to `x`. -/
def removeFirst (x : Position) : List Position → List Position
  | [] => []
  | y :: ys => if y = x then ys else y :: removeFirst x ys

/-- Source `check_and_execute_sells`, with the initial price fetch and the
per-position slippage fetches and unstake outcomes passed in.  Returns the
new state, the states passed to `save_state`, and the ids on which
`unstake_sn73` was called. -/
def check_and_execute_sells (cfg : Config) (sellFresh : Nat → ℚ)
    (unstakeResps : Nat → List GatewayResp) (sellTs : PyDateTime)
    (current_price : ℚ) (s : BotState) : BotState × List BotState × List Nat :=
  if s.active_positions = [] then (s, [], [])
  else
    let st := sells_go cfg sellFresh unstakeResps sellTs s.position_counter s.last_dca_time
      { current_price := current_price
        done := []
        completed_trades := s.completed_trades
        positions_to_remove := []
        total_profit_realized := s.total_profit_realized
        successful_sells := s.successful_sells
        failed_sells := s.failed_sells
        total_invested := s.total_invested
        saves := []
        unstake_calls := [] }
      s.active_positions
    ({ total_invested := st.total_invested
       active_positions := st.positions_to_remove.foldl (fun l q => removeFirst q l) st.done
       completed_trades := st.completed_trades
       position_counter := s.position_counter
       total_profit_realized := st.total_profit_realized
       successful_sells := st.successful_sells
       failed_sells := st.failed_sells
       last_dca_time := s.last_dca_time }, st.saves, st.unstake_calls)

/-- Everything one tick of the main loop observes from the outside world:
the clock, the two buy-side price fetches, the balance, the scripted stake
outcomes, the open timestamp, the sell-scan price fetch, the per-position
sell-side fresh prices and unstake outcomes, and the close timestamp. -/
structure TickEnv where
  now : ℚ
  buy_price : ℚ
  buy_fresh : ℚ
  wallet_balance : ℚ
  stakeResps : List GatewayResp
  buyTs : PyDateTime
  sell_price : ℚ
  sellFresh : Nat → ℚ
  unstakeResps : Nat → List GatewayResp
  sellTs : PyDateTime

/-- Phase 1 of `micro_grid_cycle`: the DCA attempt, gated on
`not is_at_investment_cap()`, the `max_positions` count and
`is_time_for_dca()`.  Returns the state after the attempt and the states
passed to `save_state`. -/
def cycle_phase1 (cfg : Config) (e : TickEnv) (s : BotState) : BotState × List BotState :=
  if is_at_investment_cap cfg s then (s, [])
  else if s.active_positions.length < cfg.max_positions then
    if is_time_for_dca cfg e.now s then
      ((execute_dca_purchase cfg s e.buy_price e.buy_fresh e.wallet_balance
          e.stakeResps e.now e.buyTs).1,
       (execute_dca_purchase cfg s e.buy_price e.buy_fresh e.wallet_balance
          e.stakeResps e.now e.buyTs).2.1)
    else (s, [])
  else (s, [])

/-- Source `micro_grid_cycle`: phase 1 as above, then phase 2 always runs the sell
scan.  Returns the new state, the states passed to `save_state` during the
tick, and the unstake call ids. -/
def micro_grid_cycle (cfg : Config) (e : TickEnv) (s : BotState) :
    BotState × List BotState × List Nat :=
  ((check_and_execute_sells cfg e.sellFresh e.unstakeResps e.sellTs e.sell_price
      (cycle_phase1 cfg e s).1).1,
   (cycle_phase1 cfg e s).2 ++
     (check_and_execute_sells cfg e.sellFresh e.unstakeResps e.sellTs e.sell_price
      (cycle_phase1 cfg e s).1).2.1,
   (check_and_execute_sells cfg e.sellFresh e.unstakeResps e.sellTs e.sell_price
      (cycle_phase1 cfg e s).1).2.2)

/-- Run a list of ticks. -/
def run_cycles (cfg : Config) (envs : List TickEnv) (s : BotState) : BotState :=
  envs.foldl (fun st e => (micro_grid_cycle cfg e st).1) s

/-- The decimal digits of `n`, most significant first, zero-padded/truncated
to width `w` (Python renders each datetime component with a fixed width). -/
def padDigits : Nat → Nat → List Nat
  | 0, _ => []
  | w + 1, n => (n / 10 ^ w) % 10 :: padDigits w n

/-- The character of a decimal digit. -/
def digitChar (d : Nat) : Char := Char.ofNat (48 + d)

/-- Width-`w` zero-padded decimal rendering of `n`. -/
def padStr (w n : Nat) : List Char := (padDigits w n).map digitChar

/-- Python `str(datetime)` / `datetime.isoformat(sep=' ')`:
`YYYY-MM-DD HH:MM:SS`, with `.ffffff` appended only when the microsecond
field is nonzero.  This is the form `json.dump(..., default=str)` writes. -/
def datetime_str (t : PyDateTime) : String :=
  String.mk (padStr 4 t.year ++ '-' :: padStr 2 t.month ++ '-' :: padStr 2 t.day ++
    ' ' :: padStr 2 t.hour ++ ':' :: padStr 2 t.minute ++ ':' :: padStr 2 t.second ++
    (if t.microsecond = 0 then [] else '.' :: padStr 6 t.microsecond))

/-- Numeric value of a decimal digit character, `none` for other characters. -/
def digitVal (c : Char) : Option Nat :=
  if 48 ≤ c.toNat ∧ c.toNat ≤ 57 then some (c.toNat - 48) else none

/-- Read exactly `w` decimal digits, folding them onto `acc`; fails on a
non-digit or on running out of input. -/
def readDigits : Nat → Nat → List Char → Option (Nat × List Char)
  | 0, acc, cs => some (acc, cs)
  | _ + 1, _, [] => none
  | w + 1, acc, c :: cs =>
    match digitVal c with
    | some d => readDigits w (acc * 10 + d) cs
    | none => none

/-- Consume an expected literal character. -/
def expectChar (c : Char) : List Char → Option (List Char)
  | [] => none
  | x :: xs => if x = c then some xs else none

/-- Consume the date/time separator; `datetime.fromisoformat` accepts any
single character in that slot. -/
def dropSep : List Char → Option (List Char)
  | [] => none
  | _ :: xs => some xs

/-- Model of `datetime.fromisoformat` on the string family produced by
`str(datetime)` (full date and time, optional 6-digit microsecond part):
other ISO-8601 shapes accepted by newer Python do not occur in the state
files this program writes, and a parse failure — like any exception in
`load_state` — makes the bot fall back to a fresh state. -/
def datetime_fromisoformat (src : String) : Option PyDateTime :=
  (readDigits 4 0 src.data).bind fun yr =>
  (expectChar '-' yr.2).bind fun r1 =>
  (readDigits 2 0 r1).bind fun mor =>
  (expectChar '-' mor.2).bind fun r2 =>
  (readDigits 2 0 r2).bind fun dr =>
  (dropSep dr.2).bind fun r3 =>
  (readDigits 2 0 r3).bind fun hr =>
  (expectChar ':' hr.2).bind fun r4 =>
  (readDigits 2 0 r4).bind fun mir =>
  (expectChar ':' mir.2).bind fun r5 =>
  (readDigits 2 0 r5).bind fun secr =>
  match secr.2 with
  | [] => some ⟨yr.1, mor.1, dr.1, hr.1, mir.1, secr.1, 0⟩
  | '.' :: r6 =>
    (readDigits 6 0 r6).bind fun usr =>
    (match usr.2 with
     | [] => some ⟨yr.1, mor.1, dr.1, hr.1, mir.1, secr.1, usr.1⟩
     | _ => none)
  | _ => none

/-- A position dictionary as it sits in the JSON state file: timestamps have
become strings (via `default=str`), every other field is
JSON-round-tripped unchanged (Python float/int/str survive `json.dump` +
`json.load` exactly). -/
structure StoredPos where
  id : Nat
  buy_price : ℚ
  sell_target_price : ℚ
  alpha_amount : ℚ
  tao_invested : ℚ
  created_timestamp : String
  status : String
  profit_percent : ℚ
  sell_price : Option ℚ
  tao_received : Option ℚ
  profit_tao : Option ℚ
  profit_percent_actual : Option ℚ
  sell_timestamp : Option String
deriving DecidableEq

/-- The JSON state file written by `save_state` (minus `start_time` and
`last_save_time`, which `load_state` never reads back). -/
structure StoredState where
  total_invested : ℚ
  active_positions : List StoredPos
  completed_trades : List StoredPos
  position_counter : Nat
  total_profit_realized : ℚ
  successful_sells : Nat
  failed_sells : Nat
  last_dca_time : ℚ
deriving DecidableEq

/-- What `json.dump(state, f, default=str)` writes for a timestamp slot: a
`datetime` is not JSON-serialisable, so `default=str` renders it; a string is
already serialisable and is written unchanged. -/
def pyTimeStr : PyTimeVal → String
  | PyTimeVal.dt t => datetime_str t
  | PyTimeVal.str s => s

/-- Serialisation of one position dictionary by
`json.dump(state, f, default=str)`. -/
def savePos (p : Position) : StoredPos :=
  { id := p.id
    buy_price := p.buy_price
    sell_target_price := p.sell_target_price
    alpha_amount := p.alpha_amount
    tao_invested := p.tao_invested
    created_timestamp := datetime_str p.created_timestamp
    status := p.status
    profit_percent := p.profit_percent
    sell_price := p.sell_price
    tao_received := p.tao_received
    profit_tao := p.profit_tao
    profit_percent_actual := p.profit_percent_actual
    sell_timestamp := p.sell_timestamp.map pyTimeStr }

/-- Source `save_state`. -/
def save_state (s : BotState) : StoredState :=
  { total_invested := s.total_invested
    active_positions := s.active_positions.map savePos
    completed_trades := s.completed_trades.map savePos
    position_counter := s.position_counter
    total_profit_realized := s.total_profit_realized
    successful_sells := s.successful_sells
    failed_sells := s.failed_sells
    last_dca_time := s.last_dca_time }

/-- The active-positions loop of `load_state` (source lines 221-223): it
converts `created_timestamp` back to a datetime and touches nothing else — in
particular a `sell_timestamp` string (present when the snapshot was written
between a successful close and the end of that scan) stays a string. -/
def load_active_pos (sp : StoredPos) : Option Position :=
  (datetime_fromisoformat sp.created_timestamp).bind fun created => some
    { id := sp.id
      buy_price := sp.buy_price
      sell_target_price := sp.sell_target_price
      alpha_amount := sp.alpha_amount
      tao_invested := sp.tao_invested
      created_timestamp := created
      status := sp.status
      profit_percent := sp.profit_percent
      sell_price := sp.sell_price
      tao_received := sp.tao_received
      profit_tao := sp.profit_tao
      profit_percent_actual := sp.profit_percent_actual
      sell_timestamp := sp.sell_timestamp.map PyTimeVal.str }

/-- The completed-trades loop of `load_state` (source lines 225-229):
converts `created_timestamp` and, when the key is present, `sell_timestamp`.
A `sell_timestamp` string `fromisoformat` cannot parse raises in the source,
which leaves that entry's string in place and abandons the rest of the
conversion; the model keeps the string and continues (the difference is
observable only on hand-edited state files — the program itself never stores
an unparseable timestamp). -/
def load_completed_pos (sp : StoredPos) : Option Position :=
  (datetime_fromisoformat sp.created_timestamp).bind fun created => some
    { id := sp.id
      buy_price := sp.buy_price
      sell_target_price := sp.sell_target_price
      alpha_amount := sp.alpha_amount
      tao_invested := sp.tao_invested
      created_timestamp := created
      status := sp.status
      profit_percent := sp.profit_percent
      sell_price := sp.sell_price
      tao_received := sp.tao_received
      profit_tao := sp.profit_tao
      profit_percent_actual := sp.profit_percent_actual
      sell_timestamp := sp.sell_timestamp.map fun sstr =>
        match datetime_fromisoformat sstr with
        | some sold => PyTimeVal.dt sold
        | none => PyTimeVal.str sstr }

/-- One conversion loop of `load_state` over a stored position list. -/
def load_positions (loader : StoredPos → Option Position) :
    List StoredPos → Option (List Position)
  | [] => some []
  | sp :: sps =>
    (loader sp).bind fun p =>
    (load_positions loader sps).bind fun ps => some (p :: ps)

/-- Source `load_state` on an existing state file: scalar fields restored,
then the two conversion loops, each with its own timestamp handling. -/
def load_state (st : StoredState) : Option BotState :=
  (load_positions load_active_pos st.active_positions).bind fun act =>
  (load_positions load_completed_pos st.completed_trades).bind fun comp =>
  some
    { total_invested := st.total_invested
      active_positions := act
      completed_trades := comp
      position_counter := st.position_counter
      total_profit_realized := st.total_profit_realized
      successful_sells := st.successful_sells
      failed_sells := st.failed_sells
      last_dca_time := st.last_dca_time }

/-- Componentwise reduction of a datetime modulo the rendered field widths;
the save/load round trip is exactly this map, and it is the identity on
well-formed datetimes. -/
def PyDateTime.norm (t : PyDateTime) : PyDateTime :=
  ⟨t.year % 10 ^ 4, t.month % 10 ^ 2, t.day % 10 ^ 2, t.hour % 10 ^ 2,
    t.minute % 10 ^ 2, t.second % 10 ^ 2, t.microsecond % 10 ^ 6⟩

/-- Field bounds every real datetime satisfies (Python bounds are tighter:
1 ≤ month ≤ 12 and so on). -/
def PyDateTime.wf (t : PyDateTime) : Bool :=
  decide (t.year < 10000) && decide (t.month < 100) && decide (t.day < 100) &&
  decide (t.hour < 100) && decide (t.minute < 100) && decide (t.second < 100) &&
  decide (t.microsecond < 1000000)

/-- What one save/load cycle does to an entry of the active list:
`created_timestamp` is rendered and parsed back (a componentwise reduction),
and any `sell_timestamp` becomes the string the file stored — a datetime is
rendered to text and never converted back by the active loop, a string stays
itself. -/
def Position.loadSaveActive (p : Position) : Position :=
  { p with created_timestamp := p.created_timestamp.norm
           sell_timestamp := p.sell_timestamp.map fun v => PyTimeVal.str (pyTimeStr v) }

/-- What one save/load cycle does to an entry of the completed list:
`created_timestamp` is rendered and parsed back, and `sell_timestamp` is
rendered and then parsed by the completed loop (a stored string that does not
parse is kept). -/
def Position.loadSaveCompleted (p : Position) : Position :=
  { p with created_timestamp := p.created_timestamp.norm
           sell_timestamp := p.sell_timestamp.map fun v =>
             match datetime_fromisoformat (pyTimeStr v) with
             | some sold => PyTimeVal.dt sold
             | none => PyTimeVal.str (pyTimeStr v) }

/-- What one save/load cycle does to a whole ledger state. -/
def BotState.loadSaveMap (s : BotState) : BotState :=
  { s with active_positions := s.active_positions.map Position.loadSaveActive
           completed_trades := s.completed_trades.map Position.loadSaveCompleted }

/-- An active-list entry the save/load cycle reproduces exactly: its creation
timestamp is in rendering range and its `sell_timestamp` is absent or already
the stored string — not a datetime, which the cycle would turn into text. -/
def Position.activeSnapWF (p : Position) : Bool :=
  p.created_timestamp.wf &&
  (match p.sell_timestamp with
   | none => true
   | some (PyTimeVal.str _) => true
   | some (PyTimeVal.dt _) => false)

/-- A completed-list entry the save/load cycle reproduces exactly: timestamps
in rendering range, with `sell_timestamp` absent or a datetime (every entry
the program itself appends to `completed_trades` is of this shape). -/
def Position.completedSnapWF (p : Position) : Bool :=
  p.created_timestamp.wf &&
  (match p.sell_timestamp with
   | none => true
   | some (PyTimeVal.dt t) => t.wf
   | some (PyTimeVal.str _) => false)

/-- A ledger state the save/load cycle reproduces exactly. -/
def BotState.snapWF (s : BotState) : Bool :=
  s.active_positions.all Position.activeSnapWF &&
  s.completed_trades.all Position.completedSnapWF

/-- Sum of `tao_invested` over the currently active positions of a list —
the quantity `total_invested` caches. -/
def activeSum (l : List Position) : ℚ :=
  ((l.filter fun p => p.status == "active").map fun p => p.tao_invested).sum

/-- The cached-total invariant of claim C2: the ledger field equals the
recomputable sum over the active position set. -/
def invariantC2 (s : BotState) : Prop :=
  s.total_invested = activeSum s.active_positions

/-- Every position id existing in the state (active or completed) is bounded
by the position counter. -/
def idBound (s : BotState) : Prop :=
  ∀ p ∈ s.active_positions ++ s.completed_trades, p.id ≤ s.position_counter

/-- One step of a deployment history: a tick of the main loop, or a process
restart (`save_state` before the process dies, `load_state` at the next
startup; an unreadable file makes `load_state` fall back to the fresh
state). -/
inductive BotOp
  | tick (e : TickEnv)
  | restart

/-- Run a history, collecting in order the position id assigned by each
successful open (a tick opens at most one position, whose id is the new value
of the counter). -/
def run_ops (cfg : Config) : BotState → List BotOp → BotState × List Nat
  | s, [] => (s, [])
  | s, BotOp.tick e :: ops =>
    ((run_ops cfg (micro_grid_cycle cfg e s).1 ops).1,
     (if (micro_grid_cycle cfg e s).1.position_counter = s.position_counter then []
      else [(micro_grid_cycle cfg e s).1.position_counter]) ++
     (run_ops cfg (micro_grid_cycle cfg e s).1 ops).2)
  | s, BotOp.restart :: ops =>
    run_ops cfg ((load_state (save_state s)).getD initialState) ops

/-- A sample open timestamp (microsecond 0, exercising the short
`str(datetime)` form). -/
def ts0 : PyDateTime := ⟨2025, 7, 1, 12, 0, 0, 0⟩

/-- A sample close timestamp with a nonzero microsecond field (exercising the
`.ffffff` form). -/
def ts1 : PyDateTime := ⟨2025, 7, 2, 9, 30, 5, 500000⟩

/-- A configuration matching the documented deployment: 0.05 TAO per DCA,
12 h interval, 15 percent target, 5.0 TAO cap with 0.1 tolerance, at most 100
positions, 2 percent max slippage, 1 percent tolerance band, 0.04 fee
reserve, no entry ceiling, no stop loss. -/
def sampleCfg : Config :=
  { dca_amount := 1/20
    dca_interval_hours := 12
    profit_target_percent := 15
    max_investment := 5
    cap_tolerance := 1/10
    max_positions := 100
    max_slippage_percent := 2
    price_check_tolerance := 1
    fee_reserve_enabled := true
    auto_fee_reserve := 1/25
    min_balance := 1/10
    max_entry_price := none
    stop_loss_percent := none }

/-- An active position bought at price 1.0 with a 15 percent target. -/
def posA : Position :=
  { id := 1
    buy_price := 1
    sell_target_price := 23/20
    alpha_amount := 1/20
    tao_invested := 1/20
    created_timestamp := ts0
    status := "active"
    profit_percent := 15
    sell_price := none
    tao_received := none
    profit_tao := none
    profit_percent_actual := none
    sell_timestamp := none }

/-- A tick environment in which an open would succeed: ample balance, stable
price 1.0, a gateway that accepts, and a sell-scan price of 1.0 (below every
sample target, so the scan closes nothing). -/
def envOpen : TickEnv :=
  { now := 0
    buy_price := 1
    buy_fresh := 1
    wallet_balance := 1
    stakeResps := [GatewayResp.ok]
    buyTs := ts0
    sell_price := 1
    sellFresh := fun _ => 1
    unstakeResps := fun _ => [GatewayResp.ok]
    sellTs := ts1 }

/-- A completed trade as `check_and_execute_sells` records it (close at price
1.16 of the position opened at 1.0). -/
def posSold : Position :=
  { id := 2
    buy_price := 1
    sell_target_price := 23/20
    alpha_amount := 1/20
    tao_invested := 1/20
    created_timestamp := ts0
    status := "sold"
    profit_percent := 15
    sell_price := some (29/25)
    tao_received := some (29/500)
    profit_tao := some (1/125)
    profit_percent_actual := some 16
    sell_timestamp := some (PyTimeVal.dt ts1) }

/-- A sample mid-run ledger state with one active position and one completed
trade. -/
def sC3 : BotState :=
  { total_invested := 1/20
    active_positions := [posA]
    completed_trades := [posSold]
    position_counter := 2
    total_profit_realized := 1/125
    successful_sells := 1
    failed_sells := 0
    last_dca_time := 100 }


/-- The ledger paused at the cap: total committed 5.1 = cap + tolerance, one
position still active. -/
def sC1 : BotState :=
  { total_invested := 51/10
    active_positions := [posA]
    completed_trades := []
    position_counter := 102
    total_profit_realized := 0
    successful_sells := 0
    failed_sells := 0
    last_dca_time := 0 }

/-- The position `posA` as the sell scan records it after a close at price 1.16. -/
def posASold : Position :=
  { posA with
      status := "sold"
      sell_price := some (29/25)
      tao_received := some (29/500)
      profit_tao := some (1/125)
      profit_percent_actual := some 16
      sell_timestamp := some (PyTimeVal.dt ts1) }

/-- The in-memory ledger state at the moment of the mid-scan `save_state`
call of a successful close starting from `openC4` (source line 471): the
sold position sits in the completed list *and* still in the active list —
its removal (source lines 491-493) has not happened yet and is never
followed by another save. -/
def sC3mid : BotState :=
  { total_invested := 0
    active_positions := [posASold]
    completed_trades := [posASold]
    position_counter := 1
    total_profit_realized := 1/125
    successful_sells := 1
    failed_sells := 0
    last_dca_time := 0 }

/-- What restoring the `sC3mid` snapshot actually produces: the completed
copy's `sell_timestamp` is parsed back to a datetime, but the active copy's
stays the string the JSON file stored (the rendering
`2025-07-02 09:30:05.500000` of `ts1`). -/
def sC3midLoaded : BotState :=
  { sC3mid with
      active_positions := [{ posASold with
        sell_timestamp := some (PyTimeVal.str (datetime_str ts1)) }] }

/-- The state `sC1` after one close of its 0.05 position at price 1.16: total committed
5.05, inside the dead band between `cap - tolerance` and `cap + tolerance`. -/
def sC1after : BotState :=
  { total_invested := 101/20
    active_positions := []
    completed_trades := [posASold]
    position_counter := 102
    total_profit_realized := 1/125
    successful_sells := 1
    failed_sells := 0
    last_dca_time := 0 }

/-- The fresh state after one successful open at entry price 1.0 with the
documented 0.05 purchase amount and 15 percent target (the opened position is
exactly `posA`). -/
def openC4 : BotState :=
  { total_invested := 1/20
    active_positions := [posA]
    completed_trades := []
    position_counter := 1
    total_profit_realized := 0
    successful_sells := 0
    failed_sells := 0
    last_dca_time := 0 }

/-- The sample configuration with a 10 percent stop-loss configured. -/
def cfgC8 : Config := { sampleCfg with stop_loss_percent := some 10 }

lemma digitVal_digitChar (d : Nat) (hd : d < 10) : digitVal (digitChar d) = some d := by
  interval_cases d <;> decide

lemma readDigits_padStr (w : Nat) : ∀ (acc n : Nat) (rest : List Char),
    readDigits w acc (padStr w n ++ rest) = some (acc * 10 ^ w + n % 10 ^ w, rest) := by
  induction w with
  | zero =>
    intro acc n rest
    simp [padStr, padDigits, readDigits, Nat.mod_one]
  | succ w ih =>
    intro acc n rest
    have hd : (n / 10 ^ w) % 10 < 10 := Nat.mod_lt _ (by norm_num)
    simp only [padStr, padDigits, List.map_cons, List.cons_append, readDigits,
      digitVal_digitChar _ hd, List.append_eq]
    rw [show ((padDigits w n).map digitChar) = padStr w n from rfl, ih]
    congr 1
    congr 1
    rw [pow_succ, Nat.mod_mul]
    ring

lemma readDigits_padStr_nil (w acc n : Nat) :
    readDigits w acc (padStr w n) = some (acc * 10 ^ w + n % 10 ^ w, []) := by
  rw [← List.append_nil (padStr w n), readDigits_padStr]

lemma fromiso_datetime_str (t : PyDateTime) :
    datetime_fromisoformat (datetime_str t) = some t.norm := by
  unfold datetime_fromisoformat datetime_str
  by_cases hus : t.microsecond = 0
  · simp [hus, readDigits_padStr, readDigits_padStr_nil, expectChar, dropSep,
      Option.bind, PyDateTime.norm, Nat.zero_mod]
  · simp [hus, readDigits_padStr, readDigits_padStr_nil, expectChar, dropSep,
      Option.bind, PyDateTime.norm]

lemma norm_of_wf (t : PyDateTime) (h : t.wf = true) : t.norm = t := by
  unfold PyDateTime.wf at h
  simp only [Bool.and_eq_true, decide_eq_true_eq] at h
  obtain ⟨⟨⟨⟨⟨⟨h1, h2⟩, h3⟩, h4⟩, h5⟩, h6⟩, h7⟩ := h
  unfold PyDateTime.norm
  cases t
  simp only [PyDateTime.mk.injEq]
  refine ⟨Nat.mod_eq_of_lt (by norm_num at h1 ⊢; omega),
    Nat.mod_eq_of_lt (by norm_num at h2 ⊢; omega),
    Nat.mod_eq_of_lt (by norm_num at h3 ⊢; omega),
    Nat.mod_eq_of_lt (by norm_num at h4 ⊢; omega),
    Nat.mod_eq_of_lt (by norm_num at h5 ⊢; omega),
    Nat.mod_eq_of_lt (by norm_num at h6 ⊢; omega),
    Nat.mod_eq_of_lt (by norm_num at h7 ⊢; omega)⟩

lemma load_active_pos_savePos (p : Position) :
    load_active_pos (savePos p) = some p.loadSaveActive := by
  unfold load_active_pos savePos Position.loadSaveActive
  rw [fromiso_datetime_str]
  cases hsell : p.sell_timestamp with
  | none => simp
  | some v => simp

lemma load_completed_pos_savePos (p : Position) :
    load_completed_pos (savePos p) = some p.loadSaveCompleted := by
  unfold load_completed_pos savePos Position.loadSaveCompleted
  rw [fromiso_datetime_str]
  cases hsell : p.sell_timestamp with
  | none => simp
  | some v => simp

lemma load_positions_map_active (l : List Position) :
    load_positions load_active_pos (l.map savePos) =
      some (l.map Position.loadSaveActive) := by
  induction l with
  | nil => rfl
  | cons p ps ih => simp [load_positions, load_active_pos_savePos, ih]

lemma load_positions_map_completed (l : List Position) :
    load_positions load_completed_pos (l.map savePos) =
      some (l.map Position.loadSaveCompleted) := by
  induction l with
  | nil => rfl
  | cons p ps ih => simp [load_positions, load_completed_pos_savePos, ih]

lemma load_save (s : BotState) :
    load_state (save_state s) = some s.loadSaveMap := by
  unfold load_state save_state BotState.loadSaveMap
  simp [load_positions_map_active, load_positions_map_completed]

lemma loadSaveActive_of_wf (p : Position) (h : p.activeSnapWF = true) :
    p.loadSaveActive = p := by
  unfold Position.activeSnapWF at h
  simp only [Bool.and_eq_true] at h
  obtain ⟨h1, h2⟩ := h
  unfold Position.loadSaveActive
  rw [norm_of_wf _ h1]
  cases hsell : p.sell_timestamp with
  | none =>
    simp only [Option.map_none']
    rw [← hsell]
  | some v =>
    cases v with
    | dt t =>
      rw [hsell] at h2
      simp at h2
    | str sstr =>
      simp only [Option.map_some', pyTimeStr]
      rw [← hsell]

lemma loadSaveCompleted_of_wf (p : Position) (h : p.completedSnapWF = true) :
    p.loadSaveCompleted = p := by
  unfold Position.completedSnapWF at h
  simp only [Bool.and_eq_true] at h
  obtain ⟨h1, h2⟩ := h
  unfold Position.loadSaveCompleted
  rw [norm_of_wf _ h1]
  cases hsell : p.sell_timestamp with
  | none =>
    simp only [Option.map_none']
    rw [← hsell]
  | some v =>
    cases v with
    | str sstr =>
      rw [hsell] at h2
      simp at h2
    | dt t =>
      have ht : t.wf = true := by
        rw [hsell] at h2
        simpa using h2
      simp only [Option.map_some', pyTimeStr, fromiso_datetime_str, norm_of_wf _ ht]
      rw [← hsell]

lemma map_loadSaveActive_of_wf (l : List Position)
    (h : l.all Position.activeSnapWF = true) :
    l.map Position.loadSaveActive = l := by
  induction l with
  | nil => rfl
  | cons p ps ih =>
    simp only [List.all_cons, Bool.and_eq_true] at h
    simp [loadSaveActive_of_wf p h.1, ih h.2]

lemma map_loadSaveCompleted_of_wf (l : List Position)
    (h : l.all Position.completedSnapWF = true) :
    l.map Position.loadSaveCompleted = l := by
  induction l with
  | nil => rfl
  | cons p ps ih =>
    simp only [List.all_cons, Bool.and_eq_true] at h
    simp [loadSaveCompleted_of_wf p h.1, ih h.2]

lemma loadSaveMap_of_snapWF (s : BotState) (h : s.snapWF = true) :
    s.loadSaveMap = s := by
  unfold BotState.snapWF at h
  simp only [Bool.and_eq_true] at h
  unfold BotState.loadSaveMap
  rw [map_loadSaveActive_of_wf _ h.1, map_loadSaveCompleted_of_wf _ h.2]

lemma pyAbs_eq_abs (x : ℚ) : pyAbs x = |x| := by
  unfold pyAbs
  by_cases h : x < 0
  · rw [if_pos h, abs_of_neg h]
  · rw [if_neg h, abs_of_nonneg (le_of_not_lt h)]

lemma check_price_slippage_accepted (cfg : Config) (a b : ℚ) (tt : TradeType) (p : ℚ)
    (h : check_price_slippage cfg a b tt = SlippageCheck.accepted p) : p = b := by
  unfold check_price_slippage at h
  split_ifs at h
  simp_all

lemma sells_step_shape (cfg : Config) (f : Nat → ℚ) (u : Nat → List GatewayResp)
    (ts : PyDateTime) (ctr : Nat) (ldt : ℚ) (st : SellScan) (p : Position)
    (rest : List Position) :
    (sells_step cfg f u ts ctr ldt st p rest = { st with done := st.done ++ [p] }) ∨
    (∃ c, sells_step cfg f u ts ctr ldt st p rest =
      { st with current_price := c
                done := st.done ++ [p]
                failed_sells := st.failed_sells + 1
                unstake_calls := st.unstake_calls ++ [p.id] }) ∨
    (p.status = "active" ∧ ∃ c q snap,
      q.id = p.id ∧ q.status = "sold" ∧ q.tao_invested = p.tao_invested ∧
      sells_step cfg f u ts ctr ldt st p rest =
      { current_price := c
        done := st.done ++ [q]
        completed_trades := st.completed_trades ++ [q]
        positions_to_remove := st.positions_to_remove ++ [q]
        total_profit_realized := st.total_profit_realized + (p.alpha_amount * c - p.tao_invested)
        successful_sells := st.successful_sells + 1
        failed_sells := st.failed_sells
        total_invested := st.total_invested - p.tao_invested
        saves := st.saves ++ [snap]
        unstake_calls := st.unstake_calls ++ [p.id] }) := by
  unfold sells_step
  by_cases h1 : p.status ≠ "active"
  · left; rw [if_pos h1]
  · rw [if_neg h1]
    push_neg at h1
    by_cases h2 : st.current_price ≥ p.sell_target_price
    · rw [if_pos h2]
      rcases hcp : check_price_slippage cfg st.current_price (f p.id) TradeType.sell with r | c
      · left; rfl
      · by_cases h3 : unstake_sn73 (u p.id)
        · right; right
          refine ⟨h1, c,
            { p with status := "sold"
                     sell_price := some c
                     tao_received := some (p.alpha_amount * c)
                     profit_tao := some (p.alpha_amount * c - p.tao_invested)
                     profit_percent_actual :=
                       some ((p.alpha_amount * c - p.tao_invested) / p.tao_invested * 100)
                     sell_timestamp := some (PyTimeVal.dt ts) },
            { total_invested := st.total_invested - p.tao_invested
              active_positions := st.done ++
                { p with status := "sold"
                         sell_price := some c
                         tao_received := some (p.alpha_amount * c)
                         profit_tao := some (p.alpha_amount * c - p.tao_invested)
                         profit_percent_actual :=
                           some ((p.alpha_amount * c - p.tao_invested) / p.tao_invested * 100)
                         sell_timestamp := some (PyTimeVal.dt ts) } :: rest
              completed_trades := st.completed_trades ++
                [{ p with status := "sold"
                          sell_price := some c
                          tao_received := some (p.alpha_amount * c)
                          profit_tao := some (p.alpha_amount * c - p.tao_invested)
                          profit_percent_actual :=
                            some ((p.alpha_amount * c - p.tao_invested) / p.tao_invested * 100)
                          sell_timestamp := some (PyTimeVal.dt ts) }]
              position_counter := ctr
              total_profit_realized :=
                st.total_profit_realized + (p.alpha_amount * c - p.tao_invested)
              successful_sells := st.successful_sells + 1
              failed_sells := st.failed_sells
              last_dca_time := ldt },
            rfl, rfl, rfl, ?_⟩
          simp [h3]
        · right; left
          refine ⟨c, ?_⟩
          have hf : unstake_sn73 (u p.id) = false := by simpa using h3
          simp [hf]
    · rw [if_neg h2]
      left
      rw [ite_self]

lemma execute_dca_after_shape (cfg : Config) (s : BotState) (pr fr w : ℚ)
    (resps : List GatewayResp) (now : ℚ) (ts : PyDateTime) :
    execute_dca_after_price_check cfg s pr fr w resps now ts = (s, [], false) ∨
    execute_dca_after_price_check cfg s pr fr w resps now ts = (s, [], true) ∨
    execute_dca_after_price_check cfg s pr fr w resps now ts =
      (dca_record_purchase cfg s fr now ts, [dca_record_purchase cfg s fr now ts], true) := by
  unfold execute_dca_after_price_check
  by_cases hbal : get_available_balance_for_trading cfg w < cfg.dca_amount
  · rw [if_pos hbal]; left; rfl
  · rw [if_neg hbal]
    rcases hcp : check_price_slippage cfg pr fr TradeType.buy with r | c
    · right; left; rfl
    · have hc := check_price_slippage_accepted cfg pr fr TradeType.buy c hcp
      subst hc
      by_cases hst : stake_sn73 resps
      · right; right
        simp [hst]
      · left
        have hf : stake_sn73 resps = false := by simpa using hst
        simp [hf]

lemma execute_dca_shape (cfg : Config) (s : BotState) (pr fr w : ℚ)
    (resps : List GatewayResp) (now : ℚ) (ts : PyDateTime) :
    ((execute_dca_purchase cfg s pr fr w resps now ts).1 = s ∧
     (execute_dca_purchase cfg s pr fr w resps now ts).2.1 = []) ∨
    ((execute_dca_purchase cfg s pr fr w resps now ts).1 =
        dca_record_purchase cfg s fr now ts ∧
     (execute_dca_purchase cfg s pr fr w resps now ts).2.1 =
        [dca_record_purchase cfg s fr now ts]) := by
  have key := execute_dca_after_shape cfg s pr fr w resps now ts
  unfold execute_dca_purchase
  rcases hmep : cfg.max_entry_price with _ | mep
  · rcases key with h | h | h <;> simp [h]
  · by_cases hpr : pr > mep
    · left
      simp [hpr]
    · rcases key with h | h | h <;> simp [hpr, h]

lemma activeSum_nil : activeSum [] = 0 := rfl

lemma activeSum_append (a b : List Position) :
    activeSum (a ++ b) = activeSum a + activeSum b := by
  simp [activeSum, List.filter_append]

lemma activeSum_cons (p : Position) (l : List Position) :
    activeSum (p :: l) =
      (if p.status = "active" then p.tao_invested else 0) + activeSum l := by
  simp only [activeSum, List.filter_cons]
  split_ifs with h1 h2 h3
  · simp
  · simp_all
  · simp_all
  · simp

lemma activeSum_single_active (p : Position) (h : p.status = "active") :
    activeSum [p] = p.tao_invested := by
  rw [show ([p] : List Position) = p :: [] from rfl, activeSum_cons, if_pos h,
    activeSum_nil, add_zero]

lemma activeSum_single_inactive (p : Position) (h : p.status ≠ "active") :
    activeSum [p] = 0 := by
  rw [show ([p] : List Position) = p :: [] from rfl, activeSum_cons, if_neg h,
    activeSum_nil, add_zero]

lemma activeSum_removeFirst (x : Position) (hx : x.status ≠ "active") :
    ∀ l, activeSum (removeFirst x l) = activeSum l := by
  intro l
  induction l with
  | nil => rfl
  | cons y ys ih =>
    unfold removeFirst
    by_cases hyx : y = x
    · rw [if_pos hyx, activeSum_cons, hyx, if_neg hx, zero_add]
    · rw [if_neg hyx, activeSum_cons, activeSum_cons, ih]

lemma activeSum_fold_remove : ∀ (rem l : List Position),
    (∀ q ∈ rem, q.status = "sold") →
    activeSum (rem.foldl (fun acc q => removeFirst q acc) l) = activeSum l := by
  intro rem
  induction rem with
  | nil => intro l _; rfl
  | cons q qs ih =>
    intro l hall
    have hq : q.status = "sold" := hall q (by simp)
    have hqa : q.status ≠ "active" := by rw [hq]; decide
    rw [List.foldl_cons, ih _ (fun r hr => hall r (by simp [hr])),
      activeSum_removeFirst q hqa]

lemma sells_go_sum (cfg : Config) (f : Nat → ℚ) (u : Nat → List GatewayResp)
    (ts : PyDateTime) (ctr : Nat) (ldt : ℚ) : ∀ (todo : List Position) (st : SellScan),
    st.total_invested = activeSum st.done + activeSum todo →
    (∀ q ∈ st.positions_to_remove, q.status = "sold") →
    ((sells_go cfg f u ts ctr ldt st todo).total_invested =
      activeSum (sells_go cfg f u ts ctr ldt st todo).done ∧
     ∀ q ∈ (sells_go cfg f u ts ctr ldt st todo).positions_to_remove, q.status = "sold") := by
  intro todo
  induction todo with
  | nil =>
    intro st hsum hrem
    unfold sells_go
    rw [activeSum_nil, add_zero] at hsum
    exact ⟨hsum, hrem⟩
  | cons p rest ih =>
    intro st hsum hrem
    unfold sells_go
    rcases sells_step_shape cfg f u ts ctr ldt st p rest with h | ⟨c, h⟩ |
      ⟨hact, c, q, snap, hqid, hqst, hqtao, h⟩
    · rw [h]
      apply ih
      · simp only [activeSum_append, activeSum_cons, activeSum_nil] at hsum ⊢
        rw [hsum]
        ring
      · exact hrem
    · rw [h]
      apply ih
      · simp only [activeSum_append, activeSum_cons, activeSum_nil] at hsum ⊢
        rw [hsum]
        ring
      · exact hrem
    · rw [h]
      apply ih
      · have hq0 : activeSum [q] = 0 := by
          apply activeSum_single_inactive
          rw [hqst]
          decide
        rw [activeSum_cons, if_pos hact] at hsum
        simp only [activeSum_append, hq0, activeSum_nil]
        rw [hsum]
        ring
      · intro r hr
        simp only [List.mem_append, List.mem_singleton] at hr
        rcases hr with hr | hr
        · exact hrem r hr
        · rw [hr]; exact hqst

lemma check_sells_invariantC2 (cfg : Config) (f : Nat → ℚ) (u : Nat → List GatewayResp)
    (ts : PyDateTime) (pr : ℚ) (s : BotState) (h : invariantC2 s) :
    invariantC2 (check_and_execute_sells cfg f u ts pr s).1 := by
  unfold check_and_execute_sells
  by_cases hemp : s.active_positions = []
  · rw [if_pos hemp]; exact h
  · rw [if_neg hemp]
    have key := sells_go_sum cfg f u ts s.position_counter s.last_dca_time s.active_positions
      { current_price := pr
        done := []
        completed_trades := s.completed_trades
        positions_to_remove := []
        total_profit_realized := s.total_profit_realized
        successful_sells := s.successful_sells
        failed_sells := s.failed_sells
        total_invested := s.total_invested
        saves := []
        unstake_calls := [] }
      (by simpa [activeSum_nil] using h)
      (by intro q hq; simp at hq)
    unfold invariantC2
    simp only []
    rw [activeSum_fold_remove _ _ key.2]
    exact key.1

lemma dca_record_invariantC2 (cfg : Config) (s : BotState) (price now : ℚ)
    (ts : PyDateTime) (h : invariantC2 s) :
    invariantC2 (dca_record_purchase cfg s price now ts) := by
  unfold invariantC2 at h ⊢
  unfold dca_record_purchase
  simp only [activeSum_append]
  rw [activeSum_single_active _ (by rfl), h]

lemma phase1_invariantC2 (cfg : Config) (e : TickEnv) (s : BotState) (h : invariantC2 s) :
    invariantC2 (cycle_phase1 cfg e s).1 := by
  unfold cycle_phase1
  split_ifs with h1 h2 h3
  · exact h
  · rcases execute_dca_shape cfg s e.buy_price e.buy_fresh e.wallet_balance e.stakeResps
      e.now e.buyTs with ⟨hs, _⟩ | ⟨hs, _⟩
    · rw [hs]; exact h
    · rw [hs]; exact dca_record_invariantC2 cfg s e.buy_fresh e.now e.buyTs h
  · exact h
  · exact h

lemma cycle_invariantC2 (cfg : Config) (e : TickEnv) (s : BotState) (h : invariantC2 s) :
    invariantC2 (micro_grid_cycle cfg e s).1 := by
  unfold micro_grid_cycle
  exact check_sells_invariantC2 cfg e.sellFresh e.unstakeResps e.sellTs e.sell_price _
    (phase1_invariantC2 cfg e s h)

lemma run_cycles_invariantC2 (cfg : Config) (envs : List TickEnv) :
    ∀ (s : BotState), invariantC2 s → invariantC2 (run_cycles cfg envs s) := by
  induction envs with
  | nil => intro s h; exact h
  | cons e es ih =>
    intro s h
    unfold run_cycles at ih ⊢
    rw [List.foldl_cons]
    exact ih _ (cycle_invariantC2 cfg e s h)

lemma loadSaveMap_invariantC2 (s : BotState) (h : invariantC2 s) :
    invariantC2 s.loadSaveMap := by
  unfold invariantC2 at h ⊢
  unfold BotState.loadSaveMap
  simp only []
  have key : ∀ l : List Position,
      activeSum (l.map Position.loadSaveActive) = activeSum l := by
    intro l
    induction l with
    | nil => rfl
    | cons p ps ihp =>
      rw [List.map_cons, activeSum_cons, activeSum_cons, ihp]
      unfold Position.loadSaveActive
      rfl
  rw [key]
  exact h

lemma sells_go_saves (cfg : Config) (f : Nat → ℚ) (u : Nat → List GatewayResp)
    (ts : PyDateTime) (ctr : Nat) (ldt : ℚ) : ∀ (todo : List Position) (st : SellScan),
    (sells_go cfg f u ts ctr ldt st todo).saves.length + st.successful_sells =
    (sells_go cfg f u ts ctr ldt st todo).successful_sells + st.saves.length := by
  intro todo
  induction todo with
  | nil => intro st; unfold sells_go; omega
  | cons p rest ih =>
    intro st
    unfold sells_go
    rcases sells_step_shape cfg f u ts ctr ldt st p rest with h | ⟨c, h⟩ |
      ⟨hact, c, q, snap, hqid, hqst, hqtao, h⟩ <;> rw [h]
    · exact ih _
    · exact ih _
    · have key := ih { current_price := c, done := st.done ++ [q], completed_trades := st.completed_trades ++ [q], positions_to_remove := st.positions_to_remove ++ [q], total_profit_realized := st.total_profit_realized + (p.alpha_amount * c - p.tao_invested), successful_sells := st.successful_sells + 1, failed_sells := st.failed_sells, total_invested := st.total_invested - p.tao_invested, saves := st.saves ++ [snap], unstake_calls := st.unstake_calls ++ [p.id] }
      simp only [List.length_append, List.length_singleton] at key
      omega

lemma check_sells_saves (cfg : Config) (f : Nat → ℚ) (u : Nat → List GatewayResp)
    (ts : PyDateTime) (pr : ℚ) (s : BotState) :
    (check_and_execute_sells cfg f u ts pr s).2.1.length + s.successful_sells =
    (check_and_execute_sells cfg f u ts pr s).1.successful_sells := by
  unfold check_and_execute_sells
  by_cases hemp : s.active_positions = []
  · rw [if_pos hemp]; simp
  · rw [if_neg hemp]
    have key := sells_go_saves cfg f u ts s.position_counter s.last_dca_time s.active_positions
      { current_price := pr
        done := []
        completed_trades := s.completed_trades
        positions_to_remove := []
        total_profit_realized := s.total_profit_realized
        successful_sells := s.successful_sells
        failed_sells := s.failed_sells
        total_invested := s.total_invested
        saves := []
        unstake_calls := [] }
    simp only [List.length_nil, add_zero] at key
    exact key

lemma check_sells_ctr (cfg : Config) (f : Nat → ℚ) (u : Nat → List GatewayResp)
    (ts : PyDateTime) (pr : ℚ) (s : BotState) :
    (check_and_execute_sells cfg f u ts pr s).1.position_counter = s.position_counter := by
  unfold check_and_execute_sells
  split_ifs <;> rfl

lemma phase1_saves (cfg : Config) (e : TickEnv) (s : BotState) :
    (cycle_phase1 cfg e s).2.length + s.position_counter =
    (cycle_phase1 cfg e s).1.position_counter := by
  unfold cycle_phase1
  split_ifs with h1 h2 h3
  · simp
  · rcases execute_dca_shape cfg s e.buy_price e.buy_fresh e.wallet_balance e.stakeResps
      e.now e.buyTs with ⟨hs, hl⟩ | ⟨hs, hl⟩ <;> rw [hs, hl]
    · simp
    · simp only [dca_record_purchase, List.length_singleton]
      omega
  · simp
  · simp

lemma phase1_succ (cfg : Config) (e : TickEnv) (s : BotState) :
    (cycle_phase1 cfg e s).1.successful_sells = s.successful_sells := by
  unfold cycle_phase1
  split_ifs with h1 h2 h3
  · rfl
  · rcases execute_dca_shape cfg s e.buy_price e.buy_fresh e.wallet_balance e.stakeResps
      e.now e.buyTs with ⟨hs, _⟩ | ⟨hs, _⟩ <;> rw [hs]
    rfl
  · rfl
  · rfl

lemma dca_record_idBound (cfg : Config) (s : BotState) (price now : ℚ) (ts : PyDateTime)
    (h : idBound s) : idBound (dca_record_purchase cfg s price now ts) := by
  intro p hp
  unfold dca_record_purchase at hp
  simp only [List.mem_append, List.mem_singleton] at hp
  have hctr : (dca_record_purchase cfg s price now ts).position_counter =
      s.position_counter + 1 := rfl
  rw [hctr]
  rcases hp with (hp | hp) | hp
  · exact le_trans (h p (List.mem_append_left _ hp)) (Nat.le_succ _)
  · rw [hp]
  · exact le_trans (h p (List.mem_append_right _ hp)) (Nat.le_succ _)

lemma sells_go_ids (cfg : Config) (f : Nat → ℚ) (u : Nat → List GatewayResp)
    (ts : PyDateTime) (ctr : Nat) (ldt : ℚ) (B : Nat) :
    ∀ (todo : List Position) (st : SellScan),
    (∀ q ∈ st.done, q.id ≤ B) → (∀ q ∈ todo, q.id ≤ B) →
    (∀ q ∈ st.completed_trades, q.id ≤ B) →
    ((∀ q ∈ (sells_go cfg f u ts ctr ldt st todo).done, q.id ≤ B) ∧
     (∀ q ∈ (sells_go cfg f u ts ctr ldt st todo).completed_trades, q.id ≤ B)) := by
  intro todo
  induction todo with
  | nil => intro st hd _ hc; unfold sells_go; exact ⟨hd, hc⟩
  | cons p rest ih =>
    intro st hd ht hc
    have hp : p.id ≤ B := ht p (by simp)
    have hrest : ∀ q ∈ rest, q.id ≤ B := fun q hq => ht q (by simp [hq])
    unfold sells_go
    rcases sells_step_shape cfg f u ts ctr ldt st p rest with h | ⟨c, h⟩ |
      ⟨hact, c, q, snap, hqid, hqst, hqtao, h⟩ <;> rw [h]
    · apply ih
      · intro r hr
        rcases List.mem_append.mp hr with hr | hr
        · exact hd r hr
        · rw [List.mem_singleton.mp hr]; exact hp
      · exact hrest
      · exact hc
    · apply ih
      · intro r hr
        rcases List.mem_append.mp hr with hr | hr
        · exact hd r hr
        · rw [List.mem_singleton.mp hr]; exact hp
      · exact hrest
      · exact hc
    · apply ih
      · intro r hr
        rcases List.mem_append.mp hr with hr | hr
        · exact hd r hr
        · rw [List.mem_singleton.mp hr, hqid]; exact hp
      · exact hrest
      · intro r hr
        rcases List.mem_append.mp hr with hr | hr
        · exact hc r hr
        · rw [List.mem_singleton.mp hr, hqid]; exact hp

lemma mem_removeFirst (x r : Position) : ∀ l, r ∈ removeFirst x l → r ∈ l := by
  intro l
  induction l with
  | nil => intro h; exact absurd h (List.not_mem_nil r)
  | cons y ys ih =>
    intro h
    unfold removeFirst at h
    by_cases hyx : y = x
    · rw [if_pos hyx] at h
      exact List.mem_cons_of_mem y h
    · rw [if_neg hyx] at h
      rcases List.mem_cons.mp h with h | h
      · rw [h]; exact List.mem_cons_self _ _
      · exact List.mem_cons_of_mem y (ih h)

lemma mem_fold_remove : ∀ (rem l : List Position) (r : Position),
    r ∈ rem.foldl (fun acc x => removeFirst x acc) l → r ∈ l := by
  intro rem
  induction rem with
  | nil => intro l r h; exact h
  | cons x xs ih =>
    intro l r h
    rw [List.foldl_cons] at h
    exact mem_removeFirst x r l (ih _ r h)

lemma check_sells_idBound (cfg : Config) (f : Nat → ℚ) (u : Nat → List GatewayResp)
    (ts : PyDateTime) (pr : ℚ) (s : BotState) (h : idBound s) :
    idBound (check_and_execute_sells cfg f u ts pr s).1 := by
  unfold check_and_execute_sells
  by_cases hemp : s.active_positions = []
  · rw [if_pos hemp]; exact h
  · rw [if_neg hemp]
    have hact : ∀ q ∈ s.active_positions, q.id ≤ s.position_counter :=
      fun q hq => h q (List.mem_append_left _ hq)
    have hcomp : ∀ q ∈ s.completed_trades, q.id ≤ s.position_counter :=
      fun q hq => h q (List.mem_append_right _ hq)
    have key := sells_go_ids cfg f u ts s.position_counter s.last_dca_time s.position_counter
      s.active_positions
      { current_price := pr, done := [], completed_trades := s.completed_trades, positions_to_remove := [], total_profit_realized := s.total_profit_realized, successful_sells := s.successful_sells, failed_sells := s.failed_sells, total_invested := s.total_invested, saves := [], unstake_calls := [] }
      (by intro q hq; simp at hq) hact hcomp
    intro p hp
    rcases List.mem_append.mp hp with hp | hp
    · exact key.1 p (mem_fold_remove _ _ p hp)
    · exact key.2 p hp

lemma phase1_idBound (cfg : Config) (e : TickEnv) (s : BotState) (h : idBound s) :
    idBound (cycle_phase1 cfg e s).1 ∧
    s.position_counter ≤ (cycle_phase1 cfg e s).1.position_counter ∧
    (cycle_phase1 cfg e s).1.position_counter ≤ s.position_counter + 1 := by
  unfold cycle_phase1
  split_ifs with h1 h2 h3
  · exact ⟨h, le_refl _, Nat.le_succ _⟩
  · rcases execute_dca_shape cfg s e.buy_price e.buy_fresh e.wallet_balance e.stakeResps
      e.now e.buyTs with ⟨hs, _⟩ | ⟨hs, _⟩ <;> rw [hs]
    · exact ⟨h, le_refl _, Nat.le_succ _⟩
    · exact ⟨dca_record_idBound cfg s e.buy_fresh e.now e.buyTs h, Nat.le_succ _, le_refl _⟩
  · exact ⟨h, le_refl _, Nat.le_succ _⟩
  · exact ⟨h, le_refl _, Nat.le_succ _⟩

lemma cycle_idBound (cfg : Config) (e : TickEnv) (s : BotState) (h : idBound s) :
    idBound (micro_grid_cycle cfg e s).1 ∧
    s.position_counter ≤ (micro_grid_cycle cfg e s).1.position_counter ∧
    (micro_grid_cycle cfg e s).1.position_counter ≤ s.position_counter + 1 := by
  obtain ⟨hb, hle, hle1⟩ := phase1_idBound cfg e s h
  have hsells := check_sells_idBound cfg e.sellFresh e.unstakeResps e.sellTs e.sell_price
    (cycle_phase1 cfg e s).1 hb
  have hctr := check_sells_ctr cfg e.sellFresh e.unstakeResps e.sellTs e.sell_price
    (cycle_phase1 cfg e s).1
  unfold micro_grid_cycle
  exact ⟨hsells, by rw [hctr]; exact hle, by rw [hctr]; exact hle1⟩

lemma restart_eq (s : BotState) :
    (load_state (save_state s)).getD initialState = s.loadSaveMap := by
  rw [load_save]
  rfl

lemma loadSaveMap_idBound (s : BotState) (h : idBound s) :
    idBound s.loadSaveMap := by
  intro p hp
  unfold BotState.loadSaveMap at hp
  rcases List.mem_append.mp hp with hp | hp <;>
    obtain ⟨q, hq, hpq⟩ := List.mem_map.mp hp
  · have hqb := h q (List.mem_append_left _ hq)
    rw [← hpq]
    exact hqb
  · have hqb := h q (List.mem_append_right _ hq)
    rw [← hpq]
    exact hqb

lemma run_ops_ids (cfg : Config) : ∀ (ops : List BotOp) (s : BotState), idBound s →
    ((run_ops cfg s ops).2.Pairwise (· < ·) ∧
     ∀ i ∈ (run_ops cfg s ops).2, s.position_counter < i) := by
  intro ops
  induction ops with
  | nil =>
    intro s h
    unfold run_ops
    exact ⟨List.Pairwise.nil, by simp⟩
  | cons op rest ih =>
    intro s h
    cases op with
    | restart =>
      unfold run_ops
      rw [restart_eq]
      exact ih _ (loadSaveMap_idBound s h)
    | tick e =>
      unfold run_ops
      obtain ⟨hb, hle, hle1⟩ := cycle_idBound cfg e s h
      have key := ih _ hb
      by_cases hctr : (micro_grid_cycle cfg e s).1.position_counter = s.position_counter
      · rw [if_pos hctr]
        simp only [List.nil_append]
        refine ⟨key.1, fun i hi => ?_⟩
        have := key.2 i hi
        omega
      · rw [if_neg hctr]
        have hc2 : (micro_grid_cycle cfg e s).1.position_counter = s.position_counter + 1 := by
          omega
        rw [List.singleton_append]
        constructor
        · exact List.Pairwise.cons (fun i hi => key.2 i hi) key.1
        · intro i hi
          rcases List.mem_cons.mp hi with hi | hi
          · rw [hi, hc2]; omega
          · have := key.2 i hi; omega

lemma sells_go_no_target (cfg : Config) (f : Nat → ℚ) (u : Nat → List GatewayResp)
    (ts : PyDateTime) (ctr : Nat) (ldt : ℚ) (price : ℚ) :
    ∀ (todo : List Position) (st : SellScan), st.current_price = price →
    (∀ p ∈ todo, p.status = "active" → price < p.sell_target_price) →
    sells_go cfg f u ts ctr ldt st todo = { st with done := st.done ++ todo } := by
  intro todo
  induction todo with
  | nil =>
    intro st hpr _
    unfold sells_go
    simp
  | cons p rest ih =>
    intro st hpr htodo
    unfold sells_go
    have hstep : sells_step cfg f u ts ctr ldt st p rest =
        { st with done := st.done ++ [p] } := by
      unfold sells_step
      by_cases h1 : p.status ≠ "active"
      · rw [if_pos h1]
      · rw [if_neg h1]
        push_neg at h1
        have hlt := htodo p (by simp) h1
        rw [if_neg (by rw [hpr]; exact not_le.mpr hlt), ite_self]
    rw [hstep, ih { st with done := st.done ++ [p] } hpr (fun q hq => htodo q (by simp [hq]))]
    simp

lemma check_sells_no_target (cfg : Config) (f : Nat → ℚ) (u : Nat → List GatewayResp)
    (ts : PyDateTime) (price : ℚ) (s : BotState)
    (h : ∀ p ∈ s.active_positions, p.status = "active" → price < p.sell_target_price) :
    check_and_execute_sells cfg f u ts price s = (s, [], []) := by
  unfold check_and_execute_sells
  by_cases hemp : s.active_positions = []
  · rw [if_pos hemp]
  · rw [if_neg hemp]
    rw [sells_go_no_target cfg f u ts s.position_counter s.last_dca_time price
      s.active_positions
      { current_price := price, done := [], completed_trades := s.completed_trades, positions_to_remove := [], total_profit_realized := s.total_profit_realized, successful_sells := s.successful_sells, failed_sells := s.failed_sells, total_invested := s.total_invested, saves := [], unstake_calls := [] }
      rfl h]
    simp

/-- Claim C10: when no purchase has ever succeeded
(`last_dca_time == 0`, the never sentinel), `is_time_for_dca()` returns true
for every clock value and interval, and `get_time_until_next_dca()` returns
0, so the first open attempt is never delayed by the interval gate. -/
theorem C10_first_dca_not_delayed (cfg : Config) (now : ℚ) (s : BotState)
    (h : s.last_dca_time = 0) :
    is_time_for_dca cfg now s = true ∧ get_time_until_next_dca cfg now s = 0 := by
  unfold is_time_for_dca get_time_until_next_dca
  rw [if_pos h, if_pos h]
  exact ⟨rfl, rfl⟩

/-- Witness for C10 at the fresh state and an arbitrary clock value. -/
theorem C10_witness :
    is_time_for_dca sampleCfg 12345 initialState = true ∧
    get_time_until_next_dca sampleCfg 12345 initialState = 0 :=
  C10_first_dca_not_delayed sampleCfg 12345 initialState (by decide)

/-- Claim C5: for observed price p > 0 the slippage guard rejects exactly
when the percentage move exceeds the bound or the directional tolerance band
is crossed, and on acceptance returns the fresh price; in particular
1.0 to 1.03 under a 2 percent bound is rejected, and 1.0 to 1.01 is accepted
returning 1.01. -/
theorem C5_slippage_guard (cfg : Config) (p q : ℚ) (d : TradeType) (hp : 0 < p) :
    ((check_price_slippage cfg p q d).allowedPrice =
      if |q - p| / p * 100 > cfg.max_slippage_percent ∨
         (d = TradeType.buy ∧ q > p * (1 + cfg.price_check_tolerance / 100)) ∨
         (d = TradeType.sell ∧ q < p * (1 - cfg.price_check_tolerance / 100))
      then none else some q) ∧
    (check_price_slippage sampleCfg 1 (103/100) d).allowedPrice = none ∧
    (check_price_slippage sampleCfg 1 (101/100) d).allowedPrice = some (101/100) := by
  refine ⟨?_, by cases d <;> with_unfolding_all decide, by cases d <;> with_unfolding_all decide⟩
  unfold check_price_slippage
  rw [pyAbs_eq_abs, abs_div, abs_of_pos hp]
  by_cases h1 : |q - p| / p * 100 > cfg.max_slippage_percent
  · rw [if_pos h1, if_pos (Or.inl h1)]
    rfl
  · rw [if_neg h1]
    by_cases h2 : d = TradeType.buy ∧ q > p * (1 + cfg.price_check_tolerance / 100)
    · rw [if_pos h2, if_pos (Or.inr (Or.inl h2))]
      rfl
    · rw [if_neg h2]
      by_cases h3 : d = TradeType.sell ∧ q < p * (1 - cfg.price_check_tolerance / 100)
      · rw [if_pos h3, if_pos (Or.inr (Or.inr h3))]
        rfl
      · rw [if_neg h3, if_neg ?_]
        · rfl
        · rintro (h | h | h)
          · exact h1 h
          · exact h2 h
          · exact h3 h

/-- Witness for C5: the accepted example, with the positivity hypothesis
discharged at p = 1. -/
theorem C5_witness :
    (check_price_slippage sampleCfg 1 (101/100) TradeType.buy).allowedPrice =
      some (101/100) :=
  (C5_slippage_guard sampleCfg 1 (101/100) TradeType.buy (by decide)).2.2

/-- Claim C3 counterexample: `sC3mid` is exactly the state the close scan
passes to `save_state` mid-scan (the emitted snapshot list is `[sC3mid]`),
so its snapshot is written by a real run; restoring that snapshot yields
`sC3midLoaded`, in which the sold position inside `active_positions` carries
the string rendering of its `sell_timestamp` instead of the datetime — the
active-positions loop of `load_state` converts only `created_timestamp` — so
`load_state (save_state S) ≠ some S` at this reachable persisted state. -/
theorem C3_counterexample :
    (check_and_execute_sells sampleCfg (fun _ => 29/25) (fun _ => [GatewayResp.ok]) ts1
      (29/25) openC4).2.1 = [sC3mid] ∧
    load_state (save_state sC3mid) = some sC3midLoaded ∧
    sC3midLoaded ≠ sC3mid := by
  refine ⟨?_, ?_, ?_⟩
  · norm_num [check_and_execute_sells, sells_go, sells_step, check_price_slippage, pyAbs,
      unstake_sn73, gateway_retry, removeFirst, stop_loss_triggered,
      openC4, posA, posASold, sC3mid, sampleCfg, ts0, ts1]
  · rw [load_save]
    unfold BotState.loadSaveMap sC3mid sC3midLoaded
    simp only [List.map_cons, List.map_nil]
    unfold Position.loadSaveActive Position.loadSaveCompleted posASold posA
    simp only [Option.map_some', pyTimeStr, fromiso_datetime_str]
    norm_num [PyDateTime.norm, sC3mid, posASold, posA, ts0, ts1]
  · intro heq
    have h2 := congrArg (fun s => s.active_positions) heq
    simp [sC3midLoaded, sC3mid, posASold, posA] at h2

/-- Claim C3 as amended: the snapshot round trip
`load_state (save_state S) = some S` holds exactly for the states whose
active positions carry no datetime-valued `sell_timestamp` and whose
completed trades carry datetime (or absent) sell timestamps in rendering
range — every state outside the window between a successful close and the
end of that same scan, in particular every state persisted at open time and
every state produced by a restore.  The mid-scan snapshot is the exception
shown in the counterexample. -/
theorem C3_state_roundtrip (s : BotState) (h : s.snapWF = true) :
    load_state (save_state s) = some s := by
  rw [load_save, loadSaveMap_of_snapWF s h]

/-- Witness for the amended C3 at a concrete mid-run state. -/
theorem C3_witness : sC3.snapWF = true ∧ load_state (save_state sC3) = some sC3 :=
  ⟨by with_unfolding_all decide, C3_state_roundtrip sC3 (by with_unfolding_all decide)⟩

/-- Claim C2: starting from the fresh state or any state satisfying the
cached-total invariant (in particular any state restored from a snapshot of
such a state), `total_invested` equals the sum of `tao_invested` over the
currently active positions after every sequence of cycles — opens add
exactly the purchase amount, closes subtract exactly the closed position's
amount, and nothing else moves the total. -/
theorem C2_total_invested_no_drift (cfg : Config) (envs : List TickEnv) (s : BotState)
    (h : invariantC2 s) :
    invariantC2 (run_cycles cfg envs s) ∧ invariantC2 initialState ∧
    invariantC2 ((load_state (save_state s)).getD initialState) := by
  refine ⟨run_cycles_invariantC2 cfg envs s h, rfl, ?_⟩
  rw [restart_eq]
  exact loadSaveMap_invariantC2 s h

/-- Witness for C2: one tick from the fresh state. -/
theorem C2_witness :
    invariantC2 (run_cycles sampleCfg [envOpen] initialState) ∧
    invariantC2 initialState ∧
    invariantC2 ((load_state (save_state initialState)).getD initialState) :=
  C2_total_invested_no_drift sampleCfg [envOpen] initialState rfl

/-- Claim C9: over any deployment history of ticks and snapshot/restore
restarts from the fresh state, the position ids assigned by successful opens
are strictly increasing in order of assignment (hence never reused), and a
restore always preserves the next-id counter. -/
theorem C9_position_ids_strictly_increasing (cfg : Config) (ops : List BotOp) :
    ((run_ops cfg initialState ops).2.Pairwise (· < ·)) ∧
    (∀ s : BotState, ((load_state (save_state s)).getD initialState).position_counter =
      s.position_counter) := by
  constructor
  · refine (run_ops_ids cfg ops initialState ?_).1
    intro p hp
    simp [initialState] at hp
  · intro s
    rw [restart_eq]
    rfl

/-- Claim C1, evaluated at the failing input: at 5.1 the cycle gate is
paused and a tick opens nothing, but after a single close to 5.05 the
cycle's gate — `not is_at_investment_cap()` alone — reopens and a tick
opens position 103, even though 5.05 has not dropped below
`cap - tolerance = 4.9` (`can_resume_dca`, the lower-band test the
hysteresis claim describes, is still false and is never consulted by
`micro_grid_cycle`). -/
theorem C1_cap_gate_no_hysteresis :
    is_at_investment_cap sampleCfg sC1 = true ∧
    (micro_grid_cycle sampleCfg envOpen sC1).1.position_counter = 102 ∧
    (check_and_execute_sells sampleCfg (fun _ => 29/25) (fun _ => [GatewayResp.ok]) ts1
      (29/25) sC1).1 = sC1after ∧
    is_at_investment_cap sampleCfg sC1after = false ∧
    can_resume_dca sampleCfg sC1after = false ∧
    (micro_grid_cycle sampleCfg envOpen sC1after).1.position_counter = 103 := by
  refine ⟨by with_unfolding_all decide, ?_, ?_, by with_unfolding_all decide,
    by with_unfolding_all decide, ?_⟩
  · unfold micro_grid_cycle
    rw [check_sells_ctr]
    have h1 : cycle_phase1 sampleCfg envOpen sC1 = (sC1, []) := by
      unfold cycle_phase1
      rw [if_pos (by with_unfolding_all decide)]
    rw [h1]
    rfl
  · norm_num [check_and_execute_sells, sells_go, sells_step, check_price_slippage, pyAbs,
      unstake_sn73, gateway_retry, removeFirst, stop_loss_triggered,
      sC1, sC1after, posA, posASold, sampleCfg, ts0, ts1]
  · unfold micro_grid_cycle
    rw [check_sells_ctr]
    norm_num [cycle_phase1, execute_dca_purchase, execute_dca_after_price_check,
      dca_record_purchase, get_available_balance_for_trading, is_at_investment_cap,
      is_time_for_dca, check_price_slippage, pyAbs, stake_sn73, gateway_retry,
      sC1after, posASold, posA, sampleCfg, envOpen, ts0, ts1]

/-- Claim C4 counterexample: the close of the scenario position at 1.16
realizes 0.05 * 1.16 - 0.05 = 0.008, not the 0.003 the claim states. -/
theorem C4_counterexample :
    (execute_dca_purchase sampleCfg initialState 1 1 1 [GatewayResp.ok] 0 ts0).1 = openC4 ∧
    ((check_and_execute_sells sampleCfg (fun _ => 29/25) (fun _ => [GatewayResp.ok]) ts1
        (29/25) openC4).1.completed_trades.map fun p => p.profit_tao) = [some (1/125)] ∧
    ¬((1/125 : ℚ) = 3/1000) := by
  refine ⟨?_, ?_, by norm_num⟩
  · norm_num [execute_dca_purchase, execute_dca_after_price_check, dca_record_purchase,
      get_available_balance_for_trading, check_price_slippage, pyAbs, stake_sn73,
      gateway_retry, initialState, openC4, posA, sampleCfg, ts0]
  · norm_num [check_and_execute_sells, sells_go, sells_step, check_price_slippage, pyAbs,
      unstake_sn73, gateway_retry, removeFirst, stop_loss_triggered,
      openC4, posA, sampleCfg, ts0, ts1]

/-- Claim C4 as amended: opening at entry price 1.0 yields
`alpha_amount = 0.05` and `sell_target_price = 1.15`, and a later close scan
at price 1.16 (slippage within bounds) closes the position with realized
profit 0.05 * 1.16 - 0.05 = 0.008. -/
theorem C4_scenario :
    ((execute_dca_purchase sampleCfg initialState 1 1 1 [GatewayResp.ok] 0
        ts0).1.active_positions.map fun p => (p.alpha_amount, p.sell_target_price)) =
      [(1/20, 23/20)] ∧
    ((check_and_execute_sells sampleCfg (fun _ => 29/25) (fun _ => [GatewayResp.ok]) ts1
        (29/25) openC4).1.completed_trades.map fun p => p.profit_tao) = [some (1/125)] ∧
    (check_and_execute_sells sampleCfg (fun _ => 29/25) (fun _ => [GatewayResp.ok]) ts1
        (29/25) openC4).1.total_profit_realized = 1/125 := by
  refine ⟨?_, ?_, ?_⟩ <;>
    norm_num [execute_dca_purchase, execute_dca_after_price_check, dca_record_purchase,
      get_available_balance_for_trading, check_and_execute_sells, sells_go, sells_step,
      check_price_slippage, pyAbs, stake_sn73, unstake_sn73, gateway_retry, removeFirst,
      stop_loss_triggered, initialState, openC4, posA, sampleCfg, ts0, ts1]

/-- Claim C6, evaluated at the failing input: a gateway attempt that returns
a definitive rejection value is indeed not retried (one attempt), but
`stake_sn73` reports `True` for it — the bound `result` is never inspected —
so `execute_dca_purchase` mutates the ledger exactly as for a success
(the state after the rejected deposit equals the state after an accepted
one).  Exceptions are retried, and when all three attempts raise, no ledger
mutation happens. -/
theorem C6_rejected_result_counted_as_success :
    stake_sn73 [GatewayResp.rejected] = true ∧
    stake_attempts [GatewayResp.rejected] = 1 ∧
    stake_attempts [GatewayResp.raiseExc, GatewayResp.ok] = 2 ∧
    stake_sn73 [GatewayResp.raiseExc, GatewayResp.raiseExc, GatewayResp.raiseExc] = false ∧
    (execute_dca_purchase sampleCfg initialState 1 1 1 [GatewayResp.rejected] 0 ts0).1 =
      openC4 ∧
    (execute_dca_purchase sampleCfg initialState 1 1 1
      [GatewayResp.raiseExc, GatewayResp.raiseExc, GatewayResp.raiseExc] 0 ts0).1 =
      initialState := by
  refine ⟨by decide, by decide, by decide, by decide, ?_, ?_⟩ <;>
    norm_num [execute_dca_purchase, execute_dca_after_price_check, dca_record_purchase,
      get_available_balance_for_trading, check_price_slippage, pyAbs, stake_sn73,
      gateway_retry, initialState, openC4, posA, sampleCfg, ts0]

/-- Claim C7 counterexample: a close scan in which the only target-hit
position fails to unstake mutates the ledger (`failed_sells` becomes 1, so
the resulting state differs from the input state) yet passes nothing to
`save_state` — the persisted snapshot does not equal the in-memory state
after this mutating step. -/
theorem C7_counterexample :
    (check_and_execute_sells sampleCfg (fun _ => 29/25)
      (fun _ => [GatewayResp.raiseExc, GatewayResp.raiseExc, GatewayResp.raiseExc]) ts1
      (29/25) openC4).1.failed_sells = 1 ∧
    (check_and_execute_sells sampleCfg (fun _ => 29/25)
      (fun _ => [GatewayResp.raiseExc, GatewayResp.raiseExc, GatewayResp.raiseExc]) ts1
      (29/25) openC4).1 ≠ openC4 ∧
    (check_and_execute_sells sampleCfg (fun _ => 29/25)
      (fun _ => [GatewayResp.raiseExc, GatewayResp.raiseExc, GatewayResp.raiseExc]) ts1
      (29/25) openC4).2.1 = [] := by
  refine ⟨?_, ?_, ?_⟩ <;>
    norm_num [check_and_execute_sells, sells_go, sells_step, check_price_slippage, pyAbs,
      unstake_sn73, gateway_retry, removeFirst, stop_loss_triggered,
      openC4, posA, sampleCfg, ts0, ts1]

/-- Claim C7 as amended: during a tick, a state is passed to `save_state`
exactly once per successful open and once per successful close — the number
of snapshots equals the counter increment plus the successful-sell increment —
so recording a failed close attempt (and the post-scan removal of sold
positions) happens with no accompanying snapshot. -/
theorem C7_snapshot_written_iff_open_or_close (cfg : Config) (e : TickEnv) (s : BotState) :
    (micro_grid_cycle cfg e s).2.1.length + s.position_counter + s.successful_sells =
    (micro_grid_cycle cfg e s).1.position_counter +
      (micro_grid_cycle cfg e s).1.successful_sells := by
  have h1 := phase1_saves cfg e s
  have h2 := phase1_succ cfg e s
  have h3 := check_sells_saves cfg e.sellFresh e.unstakeResps e.sellTs e.sell_price
    (cycle_phase1 cfg e s).1
  have h4 := check_sells_ctr cfg e.sellFresh e.unstakeResps e.sellTs e.sell_price
    (cycle_phase1 cfg e s).1
  unfold micro_grid_cycle
  dsimp only
  rw [List.length_append]
  omega

/-- Claim C8 counterexample: with a stop-loss configured, a position at
price 0.5 — far below `buy_price * (1 - 0.10) = 0.9` — is detected by the
stop-loss test, the sell-direction slippage guard would accept the price,
and the gateway would accept the withdrawal, yet the close scan performs no
slippage check, no unstake call, no ledger change and no snapshot: the
branch only logs. -/
theorem C8_counterexample :
    stop_loss_triggered cfgC8 (1/2) posA = true ∧
    (check_price_slippage cfgC8 (1/2) (1/2) TradeType.sell).allowedPrice = some (1/2) ∧
    unstake_sn73 [GatewayResp.ok] = true ∧
    check_and_execute_sells cfgC8 (fun _ => 1/2) (fun _ => [GatewayResp.ok]) ts1 (1/2)
      openC4 = (openC4, [], []) := by
  refine ⟨by with_unfolding_all decide, by with_unfolding_all decide, by decide, ?_⟩
  norm_num [check_and_execute_sells, sells_go, sells_step, check_price_slippage, pyAbs,
    unstake_sn73, gateway_retry, removeFirst, stop_loss_triggered,
    openC4, posA, cfgC8, sampleCfg, ts0, ts1]

/-- Claim C8 as amended: a close scan in which no active position has reached
its profit target — the stop-loss branch is the only one evaluated — returns
the state unchanged, writes no snapshot and calls the gateway for no
position: the stop-loss trigger is detected but wired to no withdrawal. -/
theorem C8_stop_loss_no_action (cfg : Config) (f : Nat → ℚ)
    (u : Nat → List GatewayResp) (ts : PyDateTime) (price : ℚ) (s : BotState)
    (h : ∀ p ∈ s.active_positions, p.status = "active" → price < p.sell_target_price) :
    check_and_execute_sells cfg f u ts price s = (s, [], []) :=
  check_sells_no_target cfg f u ts price s h

/-- Witness for the amended C8 at the stop-loss counterexample input. -/
theorem C8_witness :
    check_and_execute_sells cfgC8 (fun _ => 1/2) (fun _ => [GatewayResp.ok]) ts0 (1/2)
      openC4 = (openC4, [], []) :=
  C8_stop_loss_no_action cfgC8 (fun _ => 1/2) (fun _ => [GatewayResp.ok]) ts0 (1/2) openC4
    (by with_unfolding_all decide)
